import Mathlib

/-!
Shallow embedding of the grocery-tracker backend (`src/backend/app.py`).

The backend is a Flask/SQLAlchemy app over three tables (`Item`, `ManualList`,
`Transaction`).  We embed the store as explicit record lists, JSON request
values as a scalar `Val` type, Python's fallible numeric operations as
`Except PyErr` computations, and each store-touching route as a function
`... → Except PyErr Resp × Store` returning the response together with the
store as it stands after the request (committed changes only).

Time (`datetime.utcnow()`) is passed in as an explicit `now : Nat` parameter;
row ids (SQLite autoincrement primary keys) are modelled by `next*Id`
counters in the store.
-/

set_option autoImplicit false

deriving instance DecidableEq for Except

namespace Grocery

/-- A JSON scalar value as it appears in a request payload or, via
`setattr`, stored in a SQLite column (SQLite is dynamically typed, so a
route can persist a non-numeric value into a numeric column). -/
inductive Val where
  | num (q : ℚ)
  | str (s : String)
  | bool (b : Bool)
  | null
deriving DecidableEq, Repr

/-- The Python-level failures the routes can raise.  `notFound` models the
`abort(404)` performed by `query.get_or_404`; every other constructor is an
uncaught exception, which Flask surfaces as a 500 response. -/
inductive PyErr where
  | typeError
  | valueError
  | keyError
  | zeroDivisionError
  | integrityError
  | notFound
deriving DecidableEq, Repr

/-- HTTP status of a raised error: `get_or_404` aborts with 404, any other
uncaught exception becomes a 500.  Nothing in the backend ever raises a
`ValidationError`-style 400 exception. -/
def PyErr.status : PyErr → Nat
  | .notFound => 404
  | _ => 500

/-- Numeric reading of a value for Python arithmetic/comparison: `bool` is an
`int` subclass in Python (`True == 1`, `False == 0`); strings and `None` do
not coerce. -/
def pyToNum : Val → Option ℚ
  | .num q => some q
  | .bool b => some (if b then 1 else 0)
  | _ => none

/-- Python truthiness of a scalar. -/
def pyTruthy : Val → Bool
  | .num q => decide (q ≠ 0)
  | .str s => decide (s ≠ "")
  | .bool b => b
  | .null => false

/-- Truthiness of `data.get(key)`: a missing key yields `None`, which is falsy. -/
def getTruthy : Option Val → Bool
  | none => false
  | some v => pyTruthy v

/-- Value of a decimal digit character. -/
def digitVal? (c : Char) : Option Nat :=
  if c.isDigit then some (c.toNat - 48) else none

/-- Reads a non-empty all-digit character list as a natural number. -/
def natOfDigits? (cs : List Char) : Option Nat :=
  match cs with
  | [] => none
  | _ => cs.foldlM (fun acc c => (digitVal? c).map (fun d => acc * 10 + d)) 0

/-- Strips leading and trailing whitespace (Python `float` ignores it). -/
def trimWs (cs : List Char) : List Char :=
  ((cs.dropWhile (·.isWhitespace)).reverse.dropWhile (·.isWhitespace)).reverse

/-- The plain decimal-literal fragment of Python `float(string)`: optional
sign, digits with an optional fractional part.  Any other string raises
`ValueError` in Python; exotic accepted forms (exponents, `inf`, `nan`) are
outside what this backend ever receives and are mapped to `none` as well. -/
def floatOfString? (s : String) : Option ℚ :=
  let cs := trimWs s.toList
  let sgn : ℚ × List Char :=
    match cs with
    | c :: rest => if c == '-' then (-1, rest) else if c == '+' then (1, rest) else (1, cs)
    | [] => (1, [])
  match List.splitOn '.' sgn.2 with
  | [w] => (natOfDigits? w).map (fun n => sgn.1 * (n : ℚ))
  | [w, f] =>
    if w.isEmpty && f.isEmpty then none
    else
      let wn := if w.isEmpty then some 0 else natOfDigits? w
      let fn := if f.isEmpty then some 0 else natOfDigits? f
      match wn, fn with
      | some a, some b => some (sgn.1 * ((a : ℚ) + (b : ℚ) / ((10 : ℚ) ^ f.length)))
      | _, _ => none
  | _ => none

/-- Python `float(x)` on a scalar: numbers and bools convert, numeric-literal
strings parse (`ValueError` otherwise), `None` raises `TypeError`. -/
def pyFloat : Val → Except PyErr ℚ
  | .num q => .ok q
  | .bool b => .ok (if b then 1 else 0)
  | .str s =>
    match floatOfString? s with
    | some q => .ok q
    | none => .error .valueError
  | .null => .error .typeError

/-- Python `a / b` on stored scalars. -/
def pyDiv (a b : Val) : Except PyErr ℚ :=
  match pyToNum a, pyToNum b with
  | some x, some y => if y = 0 then .error .zeroDivisionError else .ok (x / y)
  | _, _ => .error .typeError

/-- Python `a - b` on stored scalars. -/
def pySub (a b : Val) : Except PyErr ℚ :=
  match pyToNum a, pyToNum b with
  | some x, some y => .ok (x - y)
  | _, _ => .error .typeError

/-- Python `a <= b` on stored scalars: numeric (including bool) comparison,
lexicographic string comparison, `TypeError` on mixed or `None` operands. -/
def pyLe (a b : Val) : Except PyErr Bool :=
  match pyToNum a, pyToNum b with
  | some x, some y => .ok (decide (x ≤ y))
  | _, _ =>
    match a, b with
    | .str s, .str t => .ok (decide (¬ t < s))
    | _, _ => .error .typeError

/-- An `Item` row.  The numeric columns hold `Val`, not `ℚ`, because
`update_item` stores raw payload values via `setattr` and SQLite does not
enforce column types. -/
structure Item where
  id : Nat
  name : Val
  category : Val
  max_qty : Val
  current_qty : Val
  threshold_percent : Val
  last_updated : Nat
deriving DecidableEq, Repr

/-- A `ManualList` row.  `qty`/`regular` are typed because they are only ever
written through `float(...)` / `bool(...)` at creation. -/
structure ManualList where
  id : Nat
  item_name : Val
  qty : ℚ
  regular : Bool
  added_at : Nat
  completed : Bool
deriving DecidableEq, Repr

/-- A `Transaction` row; `change_amount` is always written through `float(...)`. -/
structure Transaction where
  id : Nat
  item_id : Option Nat
  change_amount : ℚ
  reason : String
  timestamp : Nat
deriving DecidableEq, Repr

/-- The persistent store: the three tables plus the autoincrement counters. -/
structure Store where
  items : List Item
  manual : List ManualList
  transactions : List Transaction
  nextItemId : Nat
  nextManualId : Nat
  nextTransId : Nat
deriving DecidableEq, Repr

/-- A JSON request body, restricted to the keys the routes ever read.
`none` means the key is absent (`'k' in data` is false, `data.get('k')` is
`None`). -/
structure Payload where
  name : Option Val := none
  category : Option Val := none
  max_qty : Option Val := none
  current_qty : Option Val := none
  threshold_percent : Option Val := none
  qty : Option Val := none
  regular : Option Val := none
  manual_id : Option Val := none
  item_id : Option Val := none
  add_qty : Option Val := none
deriving DecidableEq, Repr

/-- One `auto` entry of the shopping-list response. -/
structure AutoEntry where
  id : Nat
  name : Val
  current_qty : Val
  max_qty : Val
  suggested_qty : ℚ
deriving DecidableEq, Repr

/-- One `manual` entry of the shopping-list response. -/
structure ManualOut where
  id : Nat
  name : Val
  qty : ℚ
  regular : Bool
deriving DecidableEq, Repr

/-- Successful route responses. -/
inductive Resp where
  | created (id : Nat)
  | okTrue
  | badRequest (msg : String)
  | shopping (auto : List AutoEntry) (manual : List ManualOut)
deriving DecidableEq, Repr

/-- HTTP status of a non-exceptional response. -/
def Resp.status : Resp → Nat
  | .created _ => 201
  | .badRequest _ => 400
  | _ => 200

/-- HTTP status of a route outcome. -/
def respStatus : Except PyErr Resp → Nat
  | .ok r => r.status
  | .error e => e.status

/-- Primary-key lookup of a JSON id value against a row id. -/
def valIdEq (v : Val) (n : Nat) : Bool :=
  decide (pyToNum v = some (n : ℚ))

/-- `Item.query.get(v)`. -/
def findItemV (v : Val) (s : Store) : Option Item :=
  s.items.find? (fun it => valIdEq v it.id)

/-- `ManualList.query.get(v)`. -/
def findManualV (v : Val) (s : Store) : Option ManualList :=
  s.manual.find? (fun m => valIdEq v m.id)

/-- The body of `is_low` without its `try`/`except`: `item.max_qty <= 0`
short-circuits to `False`, otherwise
`(item.current_qty / item.max_qty) <= (item.threshold_percent / 100.0)`. -/
def isLowChecked (it : Item) : Except PyErr Bool :=
  match pyLe it.max_qty (Val.num 0) with
  | .error e => .error e
  | .ok true => .ok false
  | .ok false =>
    match pyDiv it.current_qty it.max_qty, pyDiv it.threshold_percent (Val.num 100) with
    | .ok r, .ok t => .ok (decide (r ≤ t))
    | .error e, _ => .error e
    | .ok _, .error e => .error e

/-- `is_low` from the source: the whole computation sits in a
`try: ... except Exception: return False`. -/
def is_low (it : Item) : Bool :=
  match isLowChecked it with
  | .ok b => b
  | .error _ => false

/-- `POST /api/items` (`add_item`).  Constructor keyword arguments are
evaluated in source order, so the three `float(...)` conversions can raise
before anything touches the session; the `name` column is `NOT NULL`, so
committing a `None` name raises `IntegrityError` and persists nothing. -/
def add_item (data : Payload) (now : Nat) (s : Store) : Except PyErr Resp × Store :=
  match pyFloat (data.max_qty.getD (Val.num 0)) with
  | .error e => (.error e, s)
  | .ok mq =>
    match pyFloat (data.current_qty.getD (Val.num 0)) with
    | .error e => (.error e, s)
    | .ok cq =>
      match pyFloat (data.threshold_percent.getD (Val.num 20)) with
      | .error e => (.error e, s)
      | .ok tp =>
        let nm := data.name.getD Val.null
        if nm = Val.null then (.error .integrityError, s)
        else
          let it : Item :=
            { id := s.nextItemId, name := nm, category := data.category.getD (Val.str "Other"),
              max_qty := Val.num mq, current_qty := Val.num cq,
              threshold_percent := Val.num tp, last_updated := now }
          (.ok (.created s.nextItemId),
            { s with items := s.items ++ [it], nextItemId := s.nextItemId + 1 })

/-- The `setattr` loop of `update_item` plus the unconditional
`last_updated` refresh: payload keys that are present overwrite the field
with the raw payload value, absent keys leave it untouched. -/
def appliedItem (data : Payload) (it : Item) (now : Nat) : Item :=
  { id := it.id, name := data.name.getD it.name, category := data.category.getD it.category,
    max_qty := data.max_qty.getD it.max_qty, current_qty := data.current_qty.getD it.current_qty,
    threshold_percent := data.threshold_percent.getD it.threshold_percent, last_updated := now }

/-- `PUT /api/items/<id>` (`update_item`).  The item mutation is committed
first; only then, and only when `current_qty` is a payload key, is the
`Transaction` built — `float(data['current_qty'])` can raise at that point,
after the first commit has already persisted. -/
def update_item (item_id : Nat) (data : Payload) (now : Nat) (s : Store) :
    Except PyErr Resp × Store :=
  match s.items.find? (fun j => j.id == item_id) with
  | none => (.error .notFound, s)
  | some it =>
    let it1 := appliedItem data it now
    if it1.name = Val.null then (.error .integrityError, s)
    else
      let s1 := { s with items := s.items.map (fun j => if j.id = item_id then it1 else j) }
      match data.current_qty with
      | none => (.ok .okTrue, s1)
      | some v =>
        match pyFloat v with
        | .error e => (.error e, s1)
        | .ok q =>
          (.ok .okTrue,
            { s1 with
              transactions := s1.transactions ++
                [{ id := s1.nextTransId, item_id := some it.id, change_amount := q,
                   reason := "update", timestamp := now }],
              nextTransId := s1.nextTransId + 1 })

/-- `DELETE /api/items/<id>` (`delete_item`): removes the row, touching
neither `ManualList` nor `Transaction`. -/
def delete_item (item_id : Nat) (s : Store) : Except PyErr Resp × Store :=
  match s.items.find? (fun j => j.id == item_id) with
  | none => (.error .notFound, s)
  | some _ => (.ok .okTrue, { s with items := s.items.filter (fun j => j.id != item_id) })

/-- One `auto` entry of `shopping_list`:
`max(0, it.max_qty - it.current_qty)` can raise `TypeError` on non-numeric
stored values. -/
def autoEntry (it : Item) : Except PyErr AutoEntry :=
  match pySub it.max_qty it.current_qty with
  | .error e => .error e
  | .ok d =>
    .ok { id := it.id, name := it.name, current_qty := it.current_qty,
          max_qty := it.max_qty, suggested_qty := max 0 d }

/-- The `for it in items: if is_low(it): auto.append(...)` loop; the first
faulting entry aborts the request. -/
def autoList : List Item → Except PyErr (List AutoEntry)
  | [] => .ok []
  | it :: rest =>
    if is_low it then
      match autoEntry it, autoList rest with
      | .ok a, .ok tail => .ok (a :: tail)
      | .error e, _ => .error e
      | .ok _, .error e => .error e
    else autoList rest

/-- Projection of a `ManualList` row into the response shape. -/
def manualOut (m : ManualList) : ManualOut :=
  { id := m.id, name := m.item_name, qty := m.qty, regular := m.regular }

/-- `GET /api/shopping-list` (`shopping_list`): the `auto` loop over all
items plus `ManualList.query.filter_by(completed=False)`.  A pure read —
the store is never written. -/
def shopping_list (s : Store) : Except PyErr Resp :=
  match autoList s.items with
  | .error e => .error e
  | .ok auto =>
    .ok (Resp.shopping auto ((s.manual.filter (fun m => !m.completed)).map manualOut))

/-- `POST /api/manual-add` (`manual_add`).  `data['name']` raises `KeyError`
when the key is absent (evaluated before the `float`); a `None` name
violates the `NOT NULL` column constraint at commit. -/
def manual_add (data : Payload) (now : Nat) (s : Store) : Except PyErr Resp × Store :=
  match data.name with
  | none => (.error .keyError, s)
  | some nm =>
    match pyFloat (data.qty.getD (Val.num 1)) with
    | .error e => (.error e, s)
    | .ok q =>
      let rg := pyTruthy (data.regular.getD (Val.bool false))
      if nm = Val.null then (.error .integrityError, s)
      else
        (.ok (.created s.nextManualId),
          { s with
            manual := s.manual ++
              [{ id := s.nextManualId, item_name := nm, qty := q, regular := rg,
                 added_at := now, completed := false }],
            nextManualId := s.nextManualId + 1 })

/-- `POST /api/mark-bought` (`mark_bought`).  A truthy `manual_id` takes the
manual branch and returns; otherwise a truthy `item_id` takes the item
branch, where the `.get` default `it.max_qty - it.current_qty` is evaluated
eagerly (Python argument evaluation) even when `add_qty` is present; with
neither id the route answers 400 `{"error": "no id provided"}`. -/
def mark_bought (data : Payload) (now : Nat) (s : Store) : Except PyErr Resp × Store :=
  if getTruthy data.manual_id then
    match findManualV (data.manual_id.getD Val.null) s with
    | none => (.error .notFound, s)
    | some _ =>
      (.ok .okTrue,
        { s with
          manual := s.manual.map (fun e =>
            if valIdEq (data.manual_id.getD Val.null) e.id then { e with completed := true }
            else e) })
  else if getTruthy data.item_id then
    match findItemV (data.item_id.getD Val.null) s with
    | none => (.error .notFound, s)
    | some it =>
      match pySub it.max_qty it.current_qty with
      | .error e => (.error e, s)
      | .ok dflt =>
        match pyFloat (data.add_qty.getD (Val.num dflt)) with
        | .error e => (.error e, s)
        | .ok added =>
          match pyToNum it.current_qty with
          | none => (.error .typeError, s)
          | some c =>
            (.ok .okTrue,
              { s with
                items := s.items.map (fun j =>
                  if j.id = it.id then
                    { it with current_qty := Val.num (c + added), last_updated := now }
                  else j),
                transactions := s.transactions ++
                  [{ id := s.nextTransId, item_id := some it.id, change_amount := added,
                     reason := "bought", timestamp := now }],
                nextTransId := s.nextTransId + 1 })
  else (.ok (.badRequest "no id provided"), s)

/-- The store-touching operations of the service.  (`GET /api/items` and
`GET /api/items/low` perform no session writes at all — they only read and
format rows — so they are omitted: they cannot change the store.) -/
inductive Op where
  | addItem (data : Payload)
  | updateItem (item_id : Nat) (data : Payload)
  | deleteItem (item_id : Nat)
  | manualAdd (data : Payload)
  | markBought (data : Payload)
  | shoppingList
deriving Repr

/-- One request against the store. -/
def step : Op → Nat → Store → Except PyErr Resp × Store
  | .addItem d, now, s => add_item d now s
  | .updateItem i d, now, s => update_item i d now s
  | .deleteItem i, _, s => delete_item i s
  | .manualAdd d, now, s => manual_add d now s
  | .markBought d, now, s => mark_bought d now s
  | .shoppingList, _, s => (shopping_list s, s)

/-- Spec-side shape of a shopping-list auto entry:
`suggested_qty = max(0, max_qty - current_qty)` read off the numeric fields
(the `getD 0` is immaterial on the numeric items this is compared on). -/
def autoEntrySpec (it : Item) : AutoEntry :=
  { id := it.id, name := it.name, current_qty := it.current_qty, max_qty := it.max_qty,
    suggested_qty := max 0 ((pyToNum it.max_qty).getD 0 - (pyToNum it.current_qty).getD 0) }

/-- Spec-side `getShoppingList`: `auto` is exactly the `is_low` items with
their suggested quantities, `manual` exactly the incomplete manual entries;
the two lists are built independently. -/
def getShoppingListSpec (s : Store) : Resp :=
  Resp.shopping ((s.items.filter is_low).map autoEntrySpec)
    ((s.manual.filter (fun m => !m.completed)).map manualOut)

/-- C3: `is_low` is `false` whenever `max_qty <= 0` (whatever the other
fields hold); for positive numeric capacity it is `true` exactly when
`current_qty / max_qty <= threshold_percent / 100`; and any fault raised by
the body is swallowed into `false` rather than an error. -/
theorem c3_is_low_characterisation (it : Item) :
    (∀ m : ℚ, it.max_qty = Val.num m → m ≤ 0 → is_low it = false) ∧
    (∀ m c t : ℚ, it.max_qty = Val.num m → it.current_qty = Val.num c →
      it.threshold_percent = Val.num t → 0 < m →
      (is_low it = true ↔ c / m ≤ t / 100)) ∧
    (∀ e : PyErr, isLowChecked it = Except.error e → is_low it = false) := by
  refine ⟨?_, ?_, ?_⟩
  · intro m hm hle
    simp [is_low, isLowChecked, pyLe, pyToNum, hm, hle]
  · intro m c t hm hc ht hpos
    have hne : ¬ m ≤ 0 := not_le.mpr hpos
    have hm0 : m ≠ 0 := ne_of_gt hpos
    have h100 : (100 : ℚ) ≠ 0 := by norm_num
    simp [is_low, isLowChecked, pyLe, pyDiv, pyToNum, hm, hc, ht, hne, hm0, h100]
  · intro e he
    simp [is_low, he]

/-- Witness for C3 at the spec scenario: Milk at 2 of 10 with threshold 20%
is low (2/10 <= 20/100). -/
theorem c3_witness :
    is_low { id := 1, name := Val.str "Milk", category := Val.str "Other",
             max_qty := Val.num 10, current_qty := Val.num 2,
             threshold_percent := Val.num 20, last_updated := 0 } = true := by
  have h := (c3_is_low_characterisation
    { id := 1, name := Val.str "Milk", category := Val.str "Other",
      max_qty := Val.num 10, current_qty := Val.num 2,
      threshold_percent := Val.num 20, last_updated := 0 }).2.1 10 2 20 rfl rfl rfl (by norm_num)
  exact h.mpr (by norm_num)

/-- C9: a mark-bought request carrying neither `manual_id` nor `item_id`
answers 400 with body `{"error": "no id provided"}` and leaves the store
untouched. -/
theorem c9_mark_bought_no_id (data : Payload) (now : Nat) (s : Store)
    (h1 : data.manual_id = none) (h2 : data.item_id = none) :
    mark_bought data now s = (Except.ok (Resp.badRequest "no id provided"), s) ∧
    respStatus (mark_bought data now s).1 = 400 := by
  have h : mark_bought data now s = (Except.ok (Resp.badRequest "no id provided"), s) := by
    simp [mark_bought, h1, h2, getTruthy]
  exact ⟨h, by rw [h]; rfl⟩

/-- Witness for C9: the empty payload on a one-item store. -/
theorem c9_witness :
    mark_bought {} 0 ⟨[⟨1, Val.str "Milk", Val.str "Other", Val.num 10, Val.num 2,
        Val.num 20, 0⟩], [], [], 2, 1, 1⟩ =
      (Except.ok (Resp.badRequest "no id provided"),
        ⟨[⟨1, Val.str "Milk", Val.str "Other", Val.num 10, Val.num 2, Val.num 20, 0⟩],
         [], [], 2, 1, 1⟩) ∧
    respStatus (mark_bought {} 0 ⟨[⟨1, Val.str "Milk", Val.str "Other", Val.num 10,
        Val.num 2, Val.num 20, 0⟩], [], [], 2, 1, 1⟩).1 = 400 :=
  c9_mark_bought_no_id {} 0 _ rfl rfl

/-- C10: when both a truthy `manual_id` and an `item_id` are supplied, only
the manual branch runs: the matching entry is completed and the route
succeeds, while `items` and `transactions` (and hence the referenced Item)
are untouched — the "exactly one id" precondition is not enforced. -/
theorem c10_mark_bought_both_ids (data : Payload) (now : Nat) (s : Store) (v : Val)
    (m : ManualList)
    (hv : data.manual_id = some v) (ht : pyTruthy v = true)
    (_hw : data.item_id.isSome = true)
    (hfind : findManualV v s = some m) :
    mark_bought data now s =
      (Except.ok Resp.okTrue,
        { s with manual := s.manual.map (fun e =>
            if valIdEq v e.id then { e with completed := true } else e) }) := by
  simp [mark_bought, hv, getTruthy, ht, hfind]

/-- Witness for C10: payload naming both ids; the manual entry completes,
the item and transaction log are untouched. -/
theorem c10_witness :
    mark_bought { manual_id := some (Val.num 1), item_id := some (Val.num 1) } 9
        ⟨[⟨1, Val.str "Milk", Val.str "Other", Val.num 10, Val.num 2, Val.num 20, 0⟩],
         [⟨1, Val.str "Eggs", 1, false, 0, false⟩], [], 2, 2, 1⟩ =
      (Except.ok Resp.okTrue,
        ⟨[⟨1, Val.str "Milk", Val.str "Other", Val.num 10, Val.num 2, Val.num 20, 0⟩],
         [⟨1, Val.str "Eggs", 1, false, 0, true⟩], [], 2, 2, 1⟩) := by
  rw [c10_mark_bought_both_ids
    { manual_id := some (Val.num 1), item_id := some (Val.num 1) } 9
    ⟨[⟨1, Val.str "Milk", Val.str "Other", Val.num 10, Val.num 2, Val.num 20, 0⟩],
     [⟨1, Val.str "Eggs", 1, false, 0, false⟩], [], 2, 2, 1⟩
    (Val.num 1) ⟨1, Val.str "Eggs", 1, false, 0, false⟩ rfl (by decide) rfl (by decide)]
  rfl

/-- C4: on an existing item (numeric fields) and a payload whose `add_qty`
is absent or numeric, the item branch of mark-bought adds `addQty` to
`current_qty` — defaulting `addQty` to `max_qty - current_qty` when absent —
refreshes `last_updated`, and appends exactly one `Transaction` with reason
`"bought"` and `change_amount = addQty`. -/
theorem c4_mark_item_bought (data : Payload) (now : Nat) (s : Store) (v : Val) (it : Item)
    (c m addq : ℚ)
    (hnm : getTruthy data.manual_id = false)
    (hid : data.item_id = some v)
    (hv : pyTruthy v = true)
    (hfind : findItemV v s = some it)
    (hm : pyToNum it.max_qty = some m)
    (hc : pyToNum it.current_qty = some c)
    (hadd : data.add_qty = some (Val.num addq) ∨ (data.add_qty = none ∧ addq = m - c)) :
    mark_bought data now s =
      (Except.ok Resp.okTrue,
        { s with
          items := s.items.map (fun j =>
            if j.id = it.id then { it with current_qty := Val.num (c + addq), last_updated := now }
            else j),
          transactions := s.transactions ++
            [{ id := s.nextTransId, item_id := some it.id, change_amount := addq,
               reason := "bought", timestamp := now }],
          nextTransId := s.nextTransId + 1 }) := by
  have hsub : pySub it.max_qty it.current_qty = .ok (m - c) := by simp [pySub, hm, hc]
  have hib : getTruthy data.item_id = true := by rw [hid]; exact hv
  have hsv : getTruthy (some v) = true := hv
  rcases hadd with h | ⟨h, rfl⟩ <;>
    simp [mark_bought, hnm, hib, hsv, hid, hfind, hsub, h, pyFloat, hc]

/-- Witness for C4 at the spec scenario: no `add_qty` on an item with
`current_qty=2, max_qty=10` tops it up to 10 and logs `change_amount=8`,
reason `"bought"`. -/
theorem c4_witness :
    mark_bought { item_id := some (Val.num 1) } 7
        ⟨[⟨1, Val.str "Milk", Val.str "Other", Val.num 10, Val.num 2, Val.num 20, 0⟩],
         [], [], 2, 1, 1⟩ =
      (Except.ok Resp.okTrue,
        ⟨[⟨1, Val.str "Milk", Val.str "Other", Val.num 10, Val.num 10, Val.num 20, 7⟩],
         [], [⟨1, some 1, 8, "bought", 7⟩], 2, 1, 2⟩) := by
  rw [c4_mark_item_bought { item_id := some (Val.num 1) } 7
    ⟨[⟨1, Val.str "Milk", Val.str "Other", Val.num 10, Val.num 2, Val.num 20, 0⟩],
     [], [], 2, 1, 1⟩
    (Val.num 1) ⟨1, Val.str "Milk", Val.str "Other", Val.num 10, Val.num 2, Val.num 20, 0⟩
    2 10 8 rfl rfl (by decide) (by decide) rfl rfl (Or.inr ⟨rfl, by norm_num⟩)]
  norm_num

/-- C5: for an existing item, the update route appends exactly one
`Transaction` — with `change_amount` the literal new `current_qty` value and
reason `"update"` — precisely when `current_qty` is a payload key; a payload
touching only other fields appends nothing. -/
theorem c5_update_transaction_iff (s : Store) (data : Payload) (item_id now : Nat) (it : Item)
    (hfind : s.items.find? (fun j => j.id == item_id) = some it)
    (hname : data.name.getD it.name ≠ Val.null) :
    (∀ q : ℚ, data.current_qty = some (Val.num q) →
      (update_item item_id data now s).2.transactions =
        s.transactions ++
          [{ id := s.nextTransId, item_id := some it.id, change_amount := q,
             reason := "update", timestamp := now }]) ∧
    (data.current_qty = none →
      (update_item item_id data now s).2.transactions = s.transactions) := by
  have hn : ¬ (appliedItem data it now).name = Val.null := hname
  constructor
  · intro q hq
    simp [update_item, hfind, hn, hq, pyFloat]
  · intro hq
    simp [update_item, hfind, hn, hq]

/-- Witness for C5: setting `current_qty := 3` logs one `"update"`
transaction recording the literal value 3; touching only `category` logs
nothing. -/
theorem c5_witness :
    (update_item 1 { current_qty := some (Val.num 3) } 5
        ⟨[⟨1, Val.str "Milk", Val.str "Other", Val.num 10, Val.num 2, Val.num 20, 0⟩],
         [], [], 2, 1, 1⟩).2.transactions =
      [] ++ [⟨1, some 1, 3, "update", 5⟩] ∧
    (update_item 1 { category := some (Val.str "Dairy") } 5
        ⟨[⟨1, Val.str "Milk", Val.str "Other", Val.num 10, Val.num 2, Val.num 20, 0⟩],
         [], [], 2, 1, 1⟩).2.transactions = [] :=
  ⟨(c5_update_transaction_iff
      ⟨[⟨1, Val.str "Milk", Val.str "Other", Val.num 10, Val.num 2, Val.num 20, 0⟩],
       [], [], 2, 1, 1⟩
      { current_qty := some (Val.num 3) } 1 5
      ⟨1, Val.str "Milk", Val.str "Other", Val.num 10, Val.num 2, Val.num 20, 0⟩
      (by decide) (by decide)).1 3 rfl,
   (c5_update_transaction_iff
      ⟨[⟨1, Val.str "Milk", Val.str "Other", Val.num 10, Val.num 2, Val.num 20, 0⟩],
       [], [], 2, 1, 1⟩
      { category := some (Val.str "Dairy") } 1 5
      ⟨1, Val.str "Milk", Val.str "Other", Val.num 10, Val.num 2, Val.num 20, 0⟩
      (by decide) (by decide)).2 rfl⟩

/-- C6: the update route overwrites exactly the fields present in the
payload (`name`, `category`, `max_qty`, `current_qty`, `threshold_percent`),
keeps `id` and every absent field unchanged, and always sets `last_updated`
to the request time — for every payload, quantity key present or not. -/
theorem c6_update_frame (s : Store) (data : Payload) (item_id now : Nat) (it : Item)
    (hfind : s.items.find? (fun j => j.id == item_id) = some it)
    (hname : data.name.getD it.name ≠ Val.null) :
    (update_item item_id data now s).2.items =
      s.items.map (fun j =>
        if j.id = item_id then
          { id := it.id, name := data.name.getD it.name,
            category := data.category.getD it.category,
            max_qty := data.max_qty.getD it.max_qty,
            current_qty := data.current_qty.getD it.current_qty,
            threshold_percent := data.threshold_percent.getD it.threshold_percent,
            last_updated := now }
        else j) := by
  cases hq : data.current_qty with
  | none => simp [update_item, hfind, hname, hq, appliedItem]
  | some v =>
    cases hf : pyFloat v with
    | error e => simp [update_item, hfind, hname, hq, hf, appliedItem]
    | ok q => simp [update_item, hfind, hname, hq, hf, appliedItem]

/-- Witness for C6: a payload touching only `category` changes that field
alone and still refreshes `last_updated`. -/
theorem c6_witness :
    (update_item 1 { category := some (Val.str "Dairy") } 5
        ⟨[⟨1, Val.str "Milk", Val.str "Other", Val.num 10, Val.num 2, Val.num 20, 0⟩],
         [], [], 2, 1, 1⟩).2.items =
      [⟨1, Val.str "Milk", Val.str "Dairy", Val.num 10, Val.num 2, Val.num 20, 5⟩] := by
  rw [c6_update_frame
    ⟨[⟨1, Val.str "Milk", Val.str "Other", Val.num 10, Val.num 2, Val.num 20, 0⟩],
     [], [], 2, 1, 1⟩
    { category := some (Val.str "Dairy") } 1 5
    ⟨1, Val.str "Milk", Val.str "Other", Val.num 10, Val.num 2, Val.num 20, 0⟩
    (by decide) (by decide)]
  rfl

/-- Any error raised by `pyFloat` is an uncaught `ValueError`/`TypeError`,
which Flask surfaces as a 500. -/
theorem pyFloat_error_status (v : Val) (e : PyErr) (h : pyFloat v = Except.error e) :
    e.status = 500 := by
  cases v with
  | num q => exact absurd h (by simp [pyFloat])
  | bool b => exact absurd h (by simp [pyFloat])
  | null =>
    simp only [pyFloat, Except.error.injEq] at h
    subst h; rfl
  | str s =>
    cases hf : floatOfString? s with
    | none =>
      simp only [pyFloat, hf, Except.error.injEq] at h
      subst h; rfl
    | some q => simp [pyFloat, hf] at h

/-- C1 counterexample: a create request with no `name` does fail without
persisting anything, but with a 500 (IntegrityError for `add_item`,
KeyError for `manual_add`), not the claimed `ValidationError`/400. -/
theorem c1_counterexample :
    (add_item {} 0 ⟨[], [], [], 1, 1, 1⟩).1 = Except.error PyErr.integrityError ∧
    respStatus (add_item {} 0 ⟨[], [], [], 1, 1, 1⟩).1 = 500 ∧
    (manual_add {} 0 ⟨[], [], [], 1, 1, 1⟩).1 = Except.error PyErr.keyError ∧
    respStatus (manual_add {} 0 ⟨[], [], [], 1, 1, 1⟩).1 = 500 := by
  refine ⟨rfl, rfl, rfl, rfl⟩

/-- C1 as amended: with `name` missing, `add_item` fails (IntegrityError
from the `NOT NULL` column, or a conversion error — always a 500, never a
400 `ValidationError`) and persists no `Item`; `manual_add` fails with
`KeyError` (500) and persists no `ManualList` row. -/
theorem c1_missing_name_fails_500 (data : Payload) (now : Nat) (s : Store)
    (h : data.name = none) :
    (∃ e : PyErr, (add_item data now s).1 = Except.error e ∧ e.status = 500) ∧
    (add_item data now s).2 = s ∧
    (manual_add data now s).1 = Except.error PyErr.keyError ∧
    (manual_add data now s).2 = s := by
  have hmadd : manual_add data now s = (Except.error PyErr.keyError, s) := by
    simp [manual_add, h]
  have hadd : ∃ e : PyErr, add_item data now s = (Except.error e, s) ∧ e.status = 500 := by
    unfold add_item
    cases hf1 : pyFloat (data.max_qty.getD (Val.num 0)) with
    | error e => exact ⟨e, rfl, pyFloat_error_status _ e hf1⟩
    | ok mq =>
      cases hf2 : pyFloat (data.current_qty.getD (Val.num 0)) with
      | error e => exact ⟨e, rfl, pyFloat_error_status _ e hf2⟩
      | ok cq =>
        cases hf3 : pyFloat (data.threshold_percent.getD (Val.num 20)) with
        | error e => exact ⟨e, rfl, pyFloat_error_status _ e hf3⟩
        | ok tp => exact ⟨PyErr.integrityError, by simp [h], rfl⟩
  obtain ⟨e, he, hst⟩ := hadd
  exact ⟨⟨e, by rw [he], hst⟩, by rw [he], by rw [hmadd], by rw [hmadd]⟩

/-- Witness for the amended C1 at the empty payload and empty store. -/
theorem c1_witness :
    (add_item {} 0 ⟨[], [], [], 1, 1, 1⟩).2 = (⟨[], [], [], 1, 1, 1⟩ : Store) ∧
    (manual_add {} 0 ⟨[], [], [], 1, 1, 1⟩).1 = Except.error PyErr.keyError ∧
    (manual_add {} 0 ⟨[], [], [], 1, 1, 1⟩).2 = (⟨[], [], [], 1, 1, 1⟩ : Store) := by
  have h := c1_missing_name_fails_500 {} 0 ⟨[], [], [], 1, 1, 1⟩ rfl
  exact ⟨h.2.1, h.2.2.1, h.2.2.2⟩

/-- C2 counterexample: an update whose `current_qty` is JSON `null` commits
the item mutation (first commit) and then raises `TypeError` at
`float(data['current_qty'])`, so the item is changed but no `Transaction`
is appended — neither "both" nor "neither". -/
theorem c2_counterexample :
    update_item 1 { current_qty := some Val.null } 5
        ⟨[⟨1, Val.str "Milk", Val.str "Other", Val.num 10, Val.num 2, Val.num 20, 0⟩],
         [], [], 2, 1, 1⟩ =
      (Except.error PyErr.typeError,
        ⟨[⟨1, Val.str "Milk", Val.str "Other", Val.num 10, Val.null, Val.num 20, 5⟩],
         [], [], 2, 1, 1⟩) ∧
    (update_item 1 { current_qty := some Val.null } 5
        ⟨[⟨1, Val.str "Milk", Val.str "Other", Val.num 10, Val.num 2, Val.num 20, 0⟩],
         [], [], 2, 1, 1⟩).2.items ≠
      [⟨1, Val.str "Milk", Val.str "Other", Val.num 10, Val.num 2, Val.num 20, 0⟩] := by
  refine ⟨rfl, by decide⟩

/-- C2 as amended: the item mutation and the `Transaction` append are two
separate commits.  With a numeric `current_qty` both take effect in one
request; but when `float(current_qty)` faults (e.g. `null`), the mutation
stays committed while no `Transaction` is appended — a partial side
effect. -/
theorem c2_update_two_commits (s : Store) (data : Payload) (item_id now : Nat) (it : Item)
    (hfind : s.items.find? (fun j => j.id == item_id) = some it)
    (hname : data.name.getD it.name ≠ Val.null) :
    (∀ q : ℚ, data.current_qty = some (Val.num q) →
      update_item item_id data now s =
        (Except.ok Resp.okTrue,
          { s with
            items := s.items.map (fun j => if j.id = item_id then appliedItem data it now else j),
            transactions := s.transactions ++
              [{ id := s.nextTransId, item_id := some it.id, change_amount := q,
                 reason := "update", timestamp := now }],
            nextTransId := s.nextTransId + 1 })) ∧
    (∀ (v : Val) (e : PyErr), data.current_qty = some v → pyFloat v = Except.error e →
      update_item item_id data now s =
        (Except.error e,
          { s with
            items := s.items.map (fun j => if j.id = item_id then appliedItem data it now else j) })) := by
  have hn : ¬ (appliedItem data it now).name = Val.null := hname
  constructor
  · intro q hq
    simp [update_item, hfind, hn, hq, pyFloat]
  · intro v e hq hf
    simp [update_item, hfind, hn, hq, hf]

/-- Witness for the amended C2: the same store with a numeric update (both
effects) and with a `null` update (item committed, no transaction). -/
theorem c2_witness :
    update_item 1 { current_qty := some (Val.num 3) } 5
        ⟨[⟨1, Val.str "Milk", Val.str "Other", Val.num 10, Val.num 2, Val.num 20, 0⟩],
         [], [], 2, 1, 1⟩ =
      (Except.ok Resp.okTrue,
        ⟨[⟨1, Val.str "Milk", Val.str "Other", Val.num 10, Val.num 3, Val.num 20, 5⟩],
         [], [⟨1, some 1, 3, "update", 5⟩], 2, 1, 2⟩) ∧
    update_item 1 { current_qty := some Val.null } 5
        ⟨[⟨1, Val.str "Milk", Val.str "Other", Val.num 10, Val.num 2, Val.num 20, 0⟩],
         [], [], 2, 1, 1⟩ =
      (Except.error PyErr.typeError,
        ⟨[⟨1, Val.str "Milk", Val.str "Other", Val.num 10, Val.null, Val.num 20, 5⟩],
         [], [], 2, 1, 1⟩) := by
  constructor
  · rw [(c2_update_two_commits
      ⟨[⟨1, Val.str "Milk", Val.str "Other", Val.num 10, Val.num 2, Val.num 20, 0⟩],
       [], [], 2, 1, 1⟩
      { current_qty := some (Val.num 3) } 1 5
      ⟨1, Val.str "Milk", Val.str "Other", Val.num 10, Val.num 2, Val.num 20, 0⟩
      (by decide) (by decide)).1 3 rfl]
    rfl
  · rw [(c2_update_two_commits
      ⟨[⟨1, Val.str "Milk", Val.str "Other", Val.num 10, Val.num 2, Val.num 20, 0⟩],
       [], [], 2, 1, 1⟩
      { current_qty := some Val.null } 1 5
      ⟨1, Val.str "Milk", Val.str "Other", Val.num 10, Val.num 2, Val.num 20, 0⟩
      (by decide) (by decide)).2 Val.null PyErr.typeError rfl rfl]
    rfl

/-- On a list of items whose quantity columns are numeric, the shopping-list
loop succeeds and produces exactly the `is_low` items in order, each with
its spec-side suggested quantity. -/
theorem autoList_wellTyped (l : List Item)
    (h : ∀ it ∈ l, (pyToNum it.max_qty).isSome ∧ (pyToNum it.current_qty).isSome) :
    autoList l = Except.ok ((l.filter is_low).map autoEntrySpec) := by
  induction l with
  | nil => rfl
  | cons it rest ih =>
    have h1 := h it (List.mem_cons_self it rest)
    have h2 : ∀ j ∈ rest, (pyToNum j.max_qty).isSome ∧ (pyToNum j.current_qty).isSome :=
      fun j hj => h j (List.mem_cons_of_mem it hj)
    obtain ⟨m, hm⟩ := Option.isSome_iff_exists.mp h1.1
    obtain ⟨c, hc⟩ := Option.isSome_iff_exists.mp h1.2
    have hae : autoEntry it = Except.ok (autoEntrySpec it) := by
      simp [autoEntry, pySub, hm, hc, autoEntrySpec]
    cases hl : is_low it with
    | true => simp [autoList, hl, hae, ih h2]
    | false => simp [autoList, hl, ih h2]

/-- C7: on a store whose items have numeric quantity columns, the
shopping-list route returns exactly the two independent lists of the spec —
`auto` is precisely the `is_low` items with
`suggested_qty = max(0, max_qty - current_qty)`, `manual` precisely the
entries with `completed = false` — with every suggested quantity
non-negative and no merging between the lists. -/
theorem c7_shopping_list_shape (s : Store)
    (h : ∀ it ∈ s.items, (pyToNum it.max_qty).isSome ∧ (pyToNum it.current_qty).isSome) :
    shopping_list s = Except.ok (getShoppingListSpec s) ∧
    ∀ a ∈ (s.items.filter is_low).map autoEntrySpec, 0 ≤ a.suggested_qty := by
  refine ⟨?_, ?_⟩
  · simp [shopping_list, autoList_wellTyped s.items h, getShoppingListSpec]
  · intro a ha
    obtain ⟨it, hit, rfl⟩ := List.mem_map.mp ha
    exact le_max_left 0 _

/-- Witness for C7: a store with one low item, one open manual entry and one
completed one. -/
theorem c7_witness :
    shopping_list ⟨[⟨1, Val.str "Milk", Val.str "Other", Val.num 10, Val.num 2, Val.num 20, 0⟩],
        [⟨1, Val.str "Eggs", 2, false, 0, false⟩, ⟨2, Val.str "Jam", 1, false, 0, true⟩],
        [], 2, 3, 1⟩ =
      Except.ok (getShoppingListSpec
        ⟨[⟨1, Val.str "Milk", Val.str "Other", Val.num 10, Val.num 2, Val.num 20, 0⟩],
         [⟨1, Val.str "Eggs", 2, false, 0, false⟩, ⟨2, Val.str "Jam", 1, false, 0, true⟩],
         [], 2, 3, 1⟩) :=
  (c7_shopping_list_shape _ (by decide)).1

/-- `add_item` never writes the transaction table. -/
theorem add_item_transactions (d : Payload) (now : Nat) (s : Store) :
    (add_item d now s).2.transactions = s.transactions := by
  unfold add_item
  repeat' first | split | dsimp only

/-- `manual_add` never writes the transaction table. -/
theorem manual_add_transactions (d : Payload) (now : Nat) (s : Store) :
    (manual_add d now s).2.transactions = s.transactions := by
  unfold manual_add
  repeat' first | split | dsimp only

/-- `delete_item` never writes the transaction table (no cascade). -/
theorem delete_item_transactions (i : Nat) (s : Store) :
    (delete_item i s).2.transactions = s.transactions := by
  unfold delete_item
  split <;> rfl

/-- `update_item` only ever appends to the transaction table. -/
theorem update_item_transactions (i : Nat) (d : Payload) (now : Nat) (s : Store) :
    ∃ l, (update_item i d now s).2.transactions = s.transactions ++ l := by
  unfold update_item
  repeat' first | split | dsimp only
  all_goals first
    | exact ⟨_, rfl⟩
    | exact ⟨[], by simp⟩

/-- `mark_bought` only ever appends to the transaction table. -/
theorem mark_bought_transactions (d : Payload) (now : Nat) (s : Store) :
    ∃ l, (mark_bought d now s).2.transactions = s.transactions ++ l := by
  unfold mark_bought
  repeat' first | split | dsimp only
  all_goals first
    | exact ⟨_, rfl⟩
    | exact ⟨[], by simp⟩

/-- C8: every operation leaves the existing transaction rows in place and at
most appends new ones (append-only log), and `delete_item` on an existing
item removes exactly that item while retaining all transactions and manual
entries. -/
theorem c8_transactions_append_only :
    (∀ (op : Op) (now : Nat) (s : Store),
      ∃ l, (step op now s).2.transactions = s.transactions ++ l) ∧
    (∀ (i : Nat) (s : Store) (it : Item),
      s.items.find? (fun j => j.id == i) = some it →
      (delete_item i s).1 = Except.ok Resp.okTrue ∧
      (delete_item i s).2.items = s.items.filter (fun j => j.id != i) ∧
      (delete_item i s).2.transactions = s.transactions ∧
      (delete_item i s).2.manual = s.manual) := by
  constructor
  · intro op now s
    cases op with
    | addItem d => exact ⟨[], by simp [step, add_item_transactions]⟩
    | updateItem i d => simpa [step] using update_item_transactions i d now s
    | deleteItem i => exact ⟨[], by simp [step, delete_item_transactions]⟩
    | manualAdd d => exact ⟨[], by simp [step, manual_add_transactions]⟩
    | markBought d => simpa [step] using mark_bought_transactions d now s
    | shoppingList => exact ⟨[], by simp [step]⟩
  · intro i s it hfind
    refine ⟨?_, ?_, ?_, ?_⟩ <;> simp [delete_item, hfind]

/-- Witness for C8: deleting the only item of a store that already holds a
transaction referencing it keeps the transaction. -/
theorem c8_witness :
    (delete_item 1 ⟨[⟨1, Val.str "Milk", Val.str "Other", Val.num 10, Val.num 2, Val.num 20, 0⟩],
        [], [⟨1, some 1, 8, "bought", 7⟩], 2, 1, 2⟩).1 = Except.ok Resp.okTrue ∧
    (delete_item 1 ⟨[⟨1, Val.str "Milk", Val.str "Other", Val.num 10, Val.num 2, Val.num 20, 0⟩],
        [], [⟨1, some 1, 8, "bought", 7⟩], 2, 1, 2⟩).2.transactions =
      [⟨1, some 1, 8, "bought", 7⟩] ∧
    (delete_item 1 ⟨[⟨1, Val.str "Milk", Val.str "Other", Val.num 10, Val.num 2, Val.num 20, 0⟩],
        [], [⟨1, some 1, 8, "bought", 7⟩], 2, 1, 2⟩).2.items = [] := by
  have h := c8_transactions_append_only.2 1
    ⟨[⟨1, Val.str "Milk", Val.str "Other", Val.num 10, Val.num 2, Val.num 20, 0⟩],
     [], [⟨1, some 1, 8, "bought", 7⟩], 2, 1, 2⟩
    ⟨1, Val.str "Milk", Val.str "Other", Val.num 10, Val.num 2, Val.num 20, 0⟩ (by decide)
  refine ⟨h.1, by rw [h.2.2.1], by rw [h.2.1]; rfl⟩

end Grocery
